import Mathlib

/-!
Shallow embedding of `src/tournament_tracker.py` (tournament-roi-tracker).

The program keeps an append-only pandas dataframe in
`st.session_state.data` with fourteen original columns (lines 80-84),
appends one row per form submission via `pd.concat` (lines 108-114), and,
whenever the dataframe is non-empty (line 118), writes three derived
columns into it (lines 123-133) and displays five aggregate metrics
(lines 159-167).  Monetary inputs are non-negative floats and counts are
non-negative ints (lines 94-103); we embed money as `ℚ` and counts as `ℕ`.

Two layers are modelled:
* the pure arithmetic of the derived columns and aggregates
  (`totalCost`, `costPerPoint`, `costPerWin`, `derive`), and
* the mutable session state (`LedgerState`, `appendRecord`,
  `deriveState`): each dataframe row is a `RowState` carrying the
  fourteen original fields plus the three derived columns as `Option ℚ`
  (`none` = column absent / NaN, as after `pd.concat` of a fresh row).
-/

namespace TournamentTracker

/-- The category selectbox of the form (line 92). -/
inductive Category where
  | J30
  | J60
  | J100
  | ITF
  | National
  | Other
  deriving DecidableEq, Repr

/-- One tournament entry: the fourteen original columns of the dataframe
(lines 80-84 and the form fields at lines 89-104). -/
structure TournamentRecord where
  tournament : String
  date : String
  location : String
  category : Category
  entryFee : ℚ
  flights : ℚ
  hotel : ℚ
  meals : ℚ
  coaching : ℚ
  miscellaneous : ℚ
  matchWins : ℕ
  matchLosses : ℕ
  rankingPoints : ℕ
  notes : String
  deriving DecidableEq, Repr

/-- The "Total Cost" column (lines 123-125): sum of the six cost columns. -/
def totalCost (r : TournamentRecord) : ℚ :=
  r.entryFee + r.flights + r.hotel + r.meals + r.coaching + r.miscellaneous

/-- The "Cost per Point" column (lines 127-129). -/
def costPerPoint (r : TournamentRecord) : ℚ :=
  if r.rankingPoints > 0 then totalCost r / (r.rankingPoints : ℚ) else 0

/-- The "Cost per Win" column (lines 131-133). -/
def costPerWin (r : TournamentRecord) : ℚ :=
  if r.matchWins > 0 then totalCost r / (r.matchWins : ℚ) else 0

/-- A displayed metric: either a numeric value or the "-" placeholder
used by lines 166-167 when the denominator sum is zero (and, on the
empty-ledger path of lines 174-175, nothing numeric is shown at all). -/
inductive Metric where
  | value : ℚ → Metric
  | placeholder : Metric
  deriving DecidableEq, Repr

/-- One row of the displayed summary: the original record together with
its three derived columns. -/
structure DerivedRecord where
  base : TournamentRecord
  totalCost : ℚ
  costPerPoint : ℚ
  costPerWin : ℚ
  deriving DecidableEq, Repr

/-- The per-row derivation of lines 123-133. -/
def deriveRecord (r : TournamentRecord) : DerivedRecord :=
  { base := r
    totalCost := totalCost r
    costPerPoint := costPerPoint r
    costPerWin := costPerWin r }

/-- `total_cost` of line 159: sum of the "Total Cost" column. -/
def snapshotTotalCost (s : List TournamentRecord) : ℚ :=
  (s.map totalCost).sum

/-- `total_points` of line 160: sum of the "Ranking Points" column. -/
def snapshotRankingPoints (s : List TournamentRecord) : ℕ :=
  (s.map (fun r => r.rankingPoints)).sum

/-- `total_wins` of line 161: sum of the "Match Wins" column. -/
def snapshotMatchWins (s : List TournamentRecord) : ℕ :=
  (s.map (fun r => r.matchWins)).sum

/-- The whole derived view rendered by lines 118-175: per-record derived
columns plus the five metrics of lines 163-167.  On the empty ledger the
`else` branch (lines 174-175) renders no numbers, so every metric is the
placeholder and the record list is empty. -/
structure DerivedView where
  records : List DerivedRecord
  sumTotalCost : Metric
  sumRankingPoints : Metric
  sumMatchWins : Metric
  avgCostPerPoint : Metric
  avgCostPerWin : Metric
  deriving DecidableEq, Repr

/-- The metrics deriver over a ledger snapshot: the non-empty branch
computes lines 123-133 and 159-167; the empty branch is lines 174-175. -/
def derive (s : List TournamentRecord) : DerivedView :=
  if s.isEmpty then
    { records := []
      sumTotalCost := Metric.placeholder
      sumRankingPoints := Metric.placeholder
      sumMatchWins := Metric.placeholder
      avgCostPerPoint := Metric.placeholder
      avgCostPerWin := Metric.placeholder }
  else
    { records := s.map deriveRecord
      sumTotalCost := Metric.value (snapshotTotalCost s)
      sumRankingPoints := Metric.value (snapshotRankingPoints s : ℚ)
      sumMatchWins := Metric.value (snapshotMatchWins s : ℚ)
      avgCostPerPoint :=
        if snapshotRankingPoints s > 0 then
          Metric.value (snapshotTotalCost s / (snapshotRankingPoints s : ℚ))
        else Metric.placeholder
      avgCostPerWin :=
        if snapshotMatchWins s > 0 then
          Metric.value (snapshotTotalCost s / (snapshotMatchWins s : ℚ))
        else Metric.placeholder }

/-- One dataframe row of `st.session_state.data`: the fourteen original
fields plus the three derived columns, `none` when the column is absent
or NaN for this row (a freshly concatenated row, lines 108-114). -/
structure RowState where
  base : TournamentRecord
  totalCostCol : Option ℚ
  costPerPointCol : Option ℚ
  costPerWinCol : Option ℚ
  deriving DecidableEq, Repr

/-- The session dataframe, row by row, in order. -/
abbrev LedgerState := List RowState

/-- The row built by `pd.DataFrame.from_dict` at lines 108-113: only the
fourteen original columns, no derived columns. -/
def newRow (r : TournamentRecord) : RowState :=
  { base := r
    totalCostCol := none
    costPerPointCol := none
    costPerWinCol := none }

/-- `pd.concat([st.session_state.data, new_row], ignore_index=True)`
(line 114): the new row goes at the end; derived columns of the new row,
when present in the frame, are NaN. -/
def appendRecord (s : LedgerState) (r : TournamentRecord) : LedgerState :=
  s ++ [newRow r]

/-- The ledger snapshot: the original fourteen columns of every row. -/
def snapshot (s : LedgerState) : List TournamentRecord :=
  s.map (fun row => row.base)

/-- The in-place column assignment of lines 123-133 on one row: the three
derived columns are (re)written from the original fields; line 127 reads
the "Total Cost" value just assigned at line 123, which equals
`totalCost row.base`. -/
def deriveRow (row : RowState) : RowState :=
  { row with
    totalCostCol := some (totalCost row.base)
    costPerPointCol := some (costPerPoint row.base)
    costPerWinCol := some (costPerWin row.base) }

/-- The state effect of the display block: when the dataframe is
non-empty (line 118) lines 123-133 assign the three derived columns of
every row; when it is empty nothing is touched (lines 174-175). -/
def deriveState (s : LedgerState) : LedgerState :=
  if s.isEmpty then s else s.map deriveRow

/-- Non-negativity of the six cost inputs, as enforced by the
`min_value=0.0` form fields (lines 94-99).  The count fields are `ℕ`
and need no side condition. -/
def NonnegCosts (r : TournamentRecord) : Prop :=
  0 ≤ r.entryFee ∧ 0 ≤ r.flights ∧ 0 ≤ r.hotel ∧ 0 ≤ r.meals ∧
    0 ≤ r.coaching ∧ 0 ≤ r.miscellaneous

instance : DecidablePred NonnegCosts := fun r => by
  unfold NonnegCosts
  infer_instance

/-- A metric is non-negative when numeric. -/
def MetricNonneg : Metric → Prop
  | Metric.value q => 0 ≤ q
  | Metric.placeholder => True

/-- An all-zero sample record. -/
def r0 : TournamentRecord :=
  { tournament := "Club Open"
    date := "2024-01-01"
    location := "Lyon"
    category := Category.J30
    entryFee := 0
    flights := 0
    hotel := 0
    meals := 0
    coaching := 0
    miscellaneous := 0
    matchWins := 0
    matchLosses := 0
    rankingPoints := 0
    notes := "" }

/-- The sample record of the specification example: entry fee 100,
flights 200, hotel 50, other costs 0, two match wins, zero ranking
points. -/
def r1 : TournamentRecord :=
  { tournament := "Spring ITF"
    date := "2024-03-01"
    location := "Paris"
    category := Category.ITF
    entryFee := 100
    flights := 200
    hotel := 50
    meals := 0
    coaching := 0
    miscellaneous := 0
    matchWins := 2
    matchLosses := 1
    rankingPoints := 0
    notes := "" }

lemma mem_records_iff (s : List TournamentRecord) (d : DerivedRecord) :
    d ∈ (derive s).records ↔ d ∈ s.map deriveRecord := by
  cases s <;> exact Iff.rfl

lemma deriveRow_base (row : RowState) : (deriveRow row).base = row.base := rfl

lemma deriveRow_deriveRow (row : RowState) :
    deriveRow (deriveRow row) = deriveRow row := rfl

lemma snapshot_deriveState (s : LedgerState) :
    snapshot (deriveState s) = snapshot s := by
  cases s with
  | nil => rfl
  | cons a as =>
    have h : (fun row : RowState => row.base) ∘ deriveRow =
        fun row : RowState => row.base := funext fun _ => rfl
    simp [deriveState, snapshot, List.map_map, h, deriveRow]

lemma snapshot_foldl (rs : List TournamentRecord) :
    ∀ s : LedgerState, snapshot (rs.foldl appendRecord s) = snapshot s ++ rs := by
  induction rs with
  | nil => intro s; simp
  | cons a as ih =>
    intro s
    rw [List.foldl_cons, ih (appendRecord s a)]
    simp [appendRecord, snapshot, newRow]

lemma totalCost_nonneg (r : TournamentRecord) (h : NonnegCosts r) :
    0 ≤ totalCost r := by
  obtain ⟨h1, h2, h3, h4, h5, h6⟩ := h
  exact add_nonneg (add_nonneg (add_nonneg (add_nonneg (add_nonneg h1 h2) h3) h4) h5) h6

lemma costPerPoint_nonneg (r : TournamentRecord) (h : NonnegCosts r) :
    0 ≤ costPerPoint r := by
  unfold costPerPoint
  split
  · exact div_nonneg (totalCost_nonneg r h) (Nat.cast_nonneg _)
  · exact le_refl 0

lemma costPerWin_nonneg (r : TournamentRecord) (h : NonnegCosts r) :
    0 ≤ costPerWin r := by
  unfold costPerWin
  split
  · exact div_nonneg (totalCost_nonneg r h) (Nat.cast_nonneg _)
  · exact le_refl 0

lemma snapshotTotalCost_nonneg (rs : List TournamentRecord)
    (h : ∀ r ∈ rs, NonnegCosts r) : 0 ≤ snapshotTotalCost rs := by
  apply List.sum_nonneg
  intro q hq
  obtain ⟨r, hr, rfl⟩ := List.mem_map.mp hq
  exact totalCost_nonneg r (h r hr)

/-- C1: every record of the derived view has its Total Cost equal to the
sum of its six cost fields (entry fee, flights, hotel, meals, coaching,
miscellaneous), including when all six are zero. -/
theorem c1_totalCost_eq_sum (s : List TournamentRecord) (d : DerivedRecord)
    (hd : d ∈ (derive s).records) :
    d.totalCost = d.base.entryFee + d.base.flights + d.base.hotel +
      d.base.meals + d.base.coaching + d.base.miscellaneous := by
  obtain ⟨r, hr, rfl⟩ := List.mem_map.mp ((mem_records_iff s d).mp hd)
  rfl

/-- Witness for C1: the sample record in a singleton snapshot. -/
theorem c1_totalCost_eq_sum_witness :
    deriveRecord r1 ∈ (derive [r1]).records ∧
    (deriveRecord r1).totalCost = (deriveRecord r1).base.entryFee +
      (deriveRecord r1).base.flights + (deriveRecord r1).base.hotel +
      (deriveRecord r1).base.meals + (deriveRecord r1).base.coaching +
      (deriveRecord r1).base.miscellaneous := by
  have hm : deriveRecord r1 ∈ (derive [r1]).records := by
    rw [show (derive [r1]).records = [deriveRecord r1] from rfl]
    exact List.mem_cons_self _ _
  exact ⟨hm, c1_totalCost_eq_sum [r1] (deriveRecord r1) hm⟩

/-- C2: every record of the derived view has Cost per Point equal to
Total Cost divided by ranking points when ranking points are positive,
and equal to 0 when ranking points are zero; the computation is total,
so a zero denominator never faults. -/
theorem c2_costPerPoint_cases (s : List TournamentRecord) (d : DerivedRecord)
    (hd : d ∈ (derive s).records) :
    (0 < d.base.rankingPoints →
      d.costPerPoint = d.totalCost / (d.base.rankingPoints : ℚ)) ∧
    (d.base.rankingPoints = 0 → d.costPerPoint = 0) := by
  obtain ⟨r, hr, rfl⟩ := List.mem_map.mp ((mem_records_iff s d).mp hd)
  constructor
  · intro h
    have h2 : 0 < r.rankingPoints := h
    show costPerPoint r = totalCost r / (r.rankingPoints : ℚ)
    unfold costPerPoint
    rw [if_pos h2]
  · intro h
    have h2 : r.rankingPoints = 0 := h
    show costPerPoint r = 0
    unfold costPerPoint
    rw [if_neg (by omega)]

/-- Witness for C2: the sample record (zero ranking points). -/
theorem c2_costPerPoint_cases_witness :
    deriveRecord r1 ∈ (derive [r1]).records ∧
    ((0 < (deriveRecord r1).base.rankingPoints →
      (deriveRecord r1).costPerPoint =
        (deriveRecord r1).totalCost / ((deriveRecord r1).base.rankingPoints : ℚ)) ∧
    ((deriveRecord r1).base.rankingPoints = 0 → (deriveRecord r1).costPerPoint = 0)) := by
  have hm : deriveRecord r1 ∈ (derive [r1]).records := by
    rw [show (derive [r1]).records = [deriveRecord r1] from rfl]
    exact List.mem_cons_self _ _
  exact ⟨hm, c2_costPerPoint_cases [r1] (deriveRecord r1) hm⟩

/-- C3: every record of the derived view has Cost per Win equal to
Total Cost divided by match wins when match wins are positive, and equal
to 0 when match wins are zero; a zero denominator never faults. -/
theorem c3_costPerWin_cases (s : List TournamentRecord) (d : DerivedRecord)
    (hd : d ∈ (derive s).records) :
    (0 < d.base.matchWins →
      d.costPerWin = d.totalCost / (d.base.matchWins : ℚ)) ∧
    (d.base.matchWins = 0 → d.costPerWin = 0) := by
  obtain ⟨r, hr, rfl⟩ := List.mem_map.mp ((mem_records_iff s d).mp hd)
  constructor
  · intro h
    have h2 : 0 < r.matchWins := h
    show costPerWin r = totalCost r / (r.matchWins : ℚ)
    unfold costPerWin
    rw [if_pos h2]
  · intro h
    have h2 : r.matchWins = 0 := h
    show costPerWin r = 0
    unfold costPerWin
    rw [if_neg (by omega)]

/-- Witness for C3: the sample record (two match wins). -/
theorem c3_costPerWin_cases_witness :
    deriveRecord r1 ∈ (derive [r1]).records ∧
    ((0 < (deriveRecord r1).base.matchWins →
      (deriveRecord r1).costPerWin =
        (deriveRecord r1).totalCost / ((deriveRecord r1).base.matchWins : ℚ)) ∧
    ((deriveRecord r1).base.matchWins = 0 → (deriveRecord r1).costPerWin = 0)) := by
  have hm : deriveRecord r1 ∈ (derive [r1]).records := by
    rw [show (derive [r1]).records = [deriveRecord r1] from rfl]
    exact List.mem_cons_self _ _
  exact ⟨hm, c3_costPerWin_cases [r1] (deriveRecord r1) hm⟩

/-- C4: for a non-empty snapshot, the Avg. Cost per Point metric is the
quotient of the total cost sum by the ranking-point sum when the latter
is positive, and the "-" placeholder (not a fault) when it is zero. -/
theorem c4_avgCostPerPoint_cases (s : List TournamentRecord) (hs : s ≠ []) :
    (0 < snapshotRankingPoints s →
      (derive s).avgCostPerPoint =
        Metric.value (snapshotTotalCost s / (snapshotRankingPoints s : ℚ))) ∧
    (snapshotRankingPoints s = 0 →
      (derive s).avgCostPerPoint = Metric.placeholder) := by
  cases s with
  | nil => exact absurd rfl hs
  | cons a as =>
    constructor
    · intro h
      simp [derive, h]
    · intro h
      simp [derive, h]

/-- Witness for C4: the singleton snapshot of the sample record, whose
ranking-point sum is zero. -/
theorem c4_avgCostPerPoint_cases_witness :
    [r1] ≠ ([] : List TournamentRecord) ∧
    ((0 < snapshotRankingPoints [r1] →
      (derive [r1]).avgCostPerPoint =
        Metric.value (snapshotTotalCost [r1] / (snapshotRankingPoints [r1] : ℚ))) ∧
    (snapshotRankingPoints [r1] = 0 →
      (derive [r1]).avgCostPerPoint = Metric.placeholder)) := by
  have hs : [r1] ≠ ([] : List TournamentRecord) := by simp
  exact ⟨hs, c4_avgCostPerPoint_cases [r1] hs⟩

/-- C6: on the empty ledger the derived view has an empty record list
and every aggregate is the "-" placeholder; no zero-division fault. -/
theorem c6_empty_ledger :
    derive ([] : List TournamentRecord) =
      { records := []
        sumTotalCost := Metric.placeholder
        sumRankingPoints := Metric.placeholder
        sumMatchWins := Metric.placeholder
        avgCostPerPoint := Metric.placeholder
        avgCostPerWin := Metric.placeholder } := rfl

/-- C7: appending N records to the empty ledger yields a snapshot of
length N holding the records in insertion order, and each single append
puts the new record at the end and grows the ledger by one. -/
theorem c7_append_order (rs : List TournamentRecord) :
    snapshot (rs.foldl appendRecord []) = rs ∧
    (rs.foldl appendRecord []).length = rs.length ∧
    ∀ (s : LedgerState) (r : TournamentRecord),
      snapshot (appendRecord s r) = snapshot s ++ [r] ∧
      (appendRecord s r).length = s.length + 1 := by
  have h1 : snapshot (rs.foldl appendRecord []) = rs := by
    simpa [snapshot] using snapshot_foldl rs []
  refine ⟨h1, ?_, ?_⟩
  · have h2 := congrArg List.length h1
    simpa [snapshot] using h2
  · intro s r
    constructor
    · simp [appendRecord, snapshot, newRow]
    · simp [appendRecord]

/-- C8: derivation is deterministic and idempotent: re-deriving the
already-derived state is a no-op, and the derived view of the snapshot
is unchanged by a prior derivation pass. -/
theorem c8_derive_idempotent (s : LedgerState) :
    deriveState (deriveState s) = deriveState s ∧
    derive (snapshot (deriveState s)) = derive (snapshot s) := by
  constructor
  · cases s with
    | nil => rfl
    | cons a as =>
      have hfun : deriveRow ∘ deriveRow = deriveRow := funext deriveRow_deriveRow
      simp [deriveState, List.map_map, hfun, deriveRow_deriveRow]
  · rw [snapshot_deriveState]

/-- C5 counterexample: on a freshly appended single-row dataframe the
display block changes the stored state, because lines 123-133 assign the
three derived columns into `st.session_state.data`; the state after the
derivation differs from the state before it. -/
theorem c5_state_changed_counterexample :
    deriveState [newRow r0] ≠ [newRow r0] := by
  intro h
  have h2 : (deriveState [newRow r0]).map (fun row => row.totalCostCol) =
      [newRow r0].map (fun row => row.totalCostCol) := by rw [h]
  simp [deriveState, deriveRow, newRow] at h2

/-- C5 amended: derivation writes the three derived columns into the
session dataframe (so the stored state can change), but it never touches
the fourteen original fields of any row, keeps the row count, never
modifies previously appended rows on an append, and re-deriving an
already-derived state is a no-op. -/
theorem c5_derive_frame (s : LedgerState) :
    snapshot (deriveState s) = snapshot s ∧
    (deriveState s).length = s.length ∧
    (∀ r : TournamentRecord, (appendRecord s r).take s.length = s) ∧
    deriveState (deriveState s) = deriveState s := by
  refine ⟨snapshot_deriveState s, ?_, ?_, ?_⟩
  · cases s with
    | nil => rfl
    | cons a as => simp [deriveState]
  · intro r
    simp [appendRecord]
  · cases s with
    | nil => rfl
    | cons a as =>
      have hfun : deriveRow ∘ deriveRow = deriveRow := funext deriveRow_deriveRow
      simp [deriveState, List.map_map, hfun, deriveRow_deriveRow]

/-- C9: when every appended record has non-negative cost fields (the
form guarantees this), every derived value of the view built after the
appends — Total Cost, Cost per Point, Cost per Win of each record and
each numeric aggregate — is non-negative. -/
theorem c9_derived_nonneg (rs : List TournamentRecord)
    (h : ∀ r ∈ rs, NonnegCosts r) :
    snapshot (rs.foldl appendRecord []) = rs ∧
    (∀ d ∈ (derive rs).records,
      0 ≤ d.totalCost ∧ 0 ≤ d.costPerPoint ∧ 0 ≤ d.costPerWin) ∧
    MetricNonneg (derive rs).sumTotalCost ∧
    MetricNonneg (derive rs).sumRankingPoints ∧
    MetricNonneg (derive rs).sumMatchWins ∧
    MetricNonneg (derive rs).avgCostPerPoint ∧
    MetricNonneg (derive rs).avgCostPerWin := by
  have hsnap : snapshot (rs.foldl appendRecord []) = rs := by
    simpa [snapshot] using snapshot_foldl rs []
  have hrec : ∀ d ∈ (derive rs).records,
      0 ≤ d.totalCost ∧ 0 ≤ d.costPerPoint ∧ 0 ≤ d.costPerWin := by
    intro d hd
    obtain ⟨r, hr, rfl⟩ := List.mem_map.mp ((mem_records_iff rs d).mp hd)
    exact ⟨totalCost_nonneg r (h r hr), costPerPoint_nonneg r (h r hr),
      costPerWin_nonneg r (h r hr)⟩
  cases rs with
  | nil => exact ⟨hsnap, hrec, trivial, trivial, trivial, trivial, trivial⟩
  | cons a as =>
    refine ⟨hsnap, hrec, ?_, ?_, ?_, ?_, ?_⟩
    · simpa [derive, MetricNonneg] using snapshotTotalCost_nonneg (a :: as) h
    · simp [derive, MetricNonneg]
    · simp [derive, MetricNonneg]
    · by_cases hp : 0 < snapshotRankingPoints (a :: as)
      · simpa [derive, hp, MetricNonneg] using
          div_nonneg (snapshotTotalCost_nonneg (a :: as) h)
            (Nat.cast_nonneg (snapshotRankingPoints (a :: as)))
      · simp [derive, hp, MetricNonneg]
    · by_cases hw : 0 < snapshotMatchWins (a :: as)
      · simpa [derive, hw, MetricNonneg] using
          div_nonneg (snapshotTotalCost_nonneg (a :: as) h)
            (Nat.cast_nonneg (snapshotMatchWins (a :: as)))
      · simp [derive, hw, MetricNonneg]

/-- Witness for C9: the singleton snapshot of the sample record. -/
theorem c9_derived_nonneg_witness :
    (∀ r ∈ [r1], NonnegCosts r) ∧
    (snapshot ([r1].foldl appendRecord []) = [r1] ∧
    (∀ d ∈ (derive [r1]).records,
      0 ≤ d.totalCost ∧ 0 ≤ d.costPerPoint ∧ 0 ≤ d.costPerWin) ∧
    MetricNonneg (derive [r1]).sumTotalCost ∧
    MetricNonneg (derive [r1]).sumRankingPoints ∧
    MetricNonneg (derive [r1]).sumMatchWins ∧
    MetricNonneg (derive [r1]).avgCostPerPoint ∧
    MetricNonneg (derive [r1]).avgCostPerWin) := by
  have h : ∀ r ∈ [r1], NonnegCosts r := by decide
  exact ⟨h, c9_derived_nonneg [r1] h⟩

/-- C10: the derivation block writes only the three derived columns:
every row of the dataframe is its old row with the Total Cost, Cost per
Point and Cost per Win columns recomputed, and the fourteen original
fields of every record stay unchanged. -/
theorem c10_writes_only_derived (s : LedgerState) :
    deriveState s = s.map (fun row =>
      { row with
        totalCostCol := some (totalCost row.base)
        costPerPointCol := some (costPerPoint row.base)
        costPerWinCol := some (costPerWin row.base) }) ∧
    snapshot (deriveState s) = snapshot s := by
  refine ⟨?_, snapshot_deriveState s⟩
  cases s with
  | nil => rfl
  | cons a as => rfl
